import Mathlib

/-!
Verification of the baileys-antiban decision-and-risk engine.

This file shallowly embeds the four core components of the repository —
the pacing rate limiter (`src/rateLimiter.ts`), the warm-up activity ramp
(`src/warmup.ts`), the risk-scoring health monitor (`src/health.ts`) and
the `AntiBan` orchestrator (`src/antiban.ts`) — and proves the behavioural
properties claimed by the specification.

Modelling conventions:
* Wall-clock time (`Date.now()`) is an explicit `now : Nat` parameter
  (epoch milliseconds); all `Date.now()` reads inside one method call are
  the same instant.
* JavaScript numbers are modelled as `Nat`, `Int` or `ℚ` as appropriate;
  `Math.round` is `jsRound` (round half towards positive infinity, as JS).
* The Box–Muller random sample used by `jitter` is passed in explicitly as
  the already-normalised value `u` (the code clamps it into `[0,1]`).
* Mutating methods return the updated object alongside their result.
* JS `Map`/`Set` are association lists / deduplicated lists.
-/

/-- JS `Math.round`: round half towards positive infinity. -/
def jsRound (x : ℚ) : Int := ⌊x + 1/2⌋

/-- Clamp a rational into the unit interval, as the source's
`Math.max(0, Math.min(1, normalized))`. -/
def clamp01 (u : ℚ) : ℚ := max 0 (min 1 u)

/-- `RateLimiter.jitter(min, max)`: the Box–Muller sample, mapped to `~0-1`
and clamped, linearly interpolates between the bounds and is rounded.
The normalised pre-clamp sample is the explicit argument `u`. -/
def jitter (a b : ℚ) (u : ℚ) : Int := jsRound (a + clamp01 u * (b - a))

/-- JS `| 0` (ToInt32): wrap an integer into `[-2^31, 2^31)`. -/
def int32 (n : Int) : Int := (n + 2 ^ 31) % 2 ^ 32 - 2 ^ 31

/-- One step of `RateLimiter.hashContent`:
`hash = ((hash << 5) - hash) + char; hash |= 0`.
(`hash << 5` is itself a 32-bit operation in JS.) -/
def hashStep (h : Int) (c : Nat) : Int := int32 (int32 (h * 32) - h + c)

/-- `RateLimiter.hashContent`: 32-bit rolling hash over the char codes.
(The source renders it in base 36 to key its `Map`; since that rendering is
injective, we key directly by the 32-bit value.) -/
def hashContent (s : String) : Int := s.data.foldl (fun h c => hashStep h c.toNat) 0

/-- Read from a JS `Map<number-ish, number>` modelled as an association
list; missing keys read as `0` (the source's `|| 0`). -/
def mapGet (m : List (Int × Nat)) (k : Int) : Nat := (m.lookup k).getD 0

/-- JS `Map.set`: update in place if present, else append. -/
def mapSet (m : List (Int × Nat)) (k : Int) (v : Nat) : List (Int × Nat) :=
  if m.any (fun p => p.fst == k) then
    m.map (fun p => if p.fst == k then (k, v) else p)
  else m ++ [(k, v)]

/-- Configuration of `RateLimiter` (all fields are milliseconds/counts). -/
structure RateLimiterConfig where
  maxPerMinute : Nat
  maxPerHour : Nat
  maxPerDay : Nat
  minDelayMs : Nat
  maxDelayMs : Nat
  newChatDelayMs : Nat
  maxIdenticalMessages : Nat
  burstAllowance : Nat
deriving DecidableEq

/-- The `DEFAULT_CONFIG` of `rateLimiter.ts`. -/
def defaultRateLimiterConfig : RateLimiterConfig :=
  { maxPerMinute := 8, maxPerHour := 200, maxPerDay := 1500,
    minDelayMs := 1500, maxDelayMs := 5000, newChatDelayMs := 3000,
    maxIdenticalMessages := 3, burstAllowance := 3 }

/-- A `MessageRecord` of `rateLimiter.ts`. -/
structure MessageRecord where
  timestamp : Nat
  recipient : String
  contentHash : Int
deriving DecidableEq

/-- The full mutable state of a `RateLimiter` instance. -/
structure RateLimiter where
  config : RateLimiterConfig
  messages : List MessageRecord
  identicalCount : List (Int × Nat)
  knownChats : List String
  burstCount : Nat
  lastMessageTime : Nat
deriving DecidableEq

/-- A fresh `RateLimiter` (`new RateLimiter(config)`). -/
def RateLimiter.mk0 (cfg : RateLimiterConfig) : RateLimiter :=
  { config := cfg, messages := [], identicalCount := [], knownChats := [],
    burstCount := 0, lastMessageTime := 0 }

/-- Is record `m` within the trailing window of `win` ms before `now`?
(JS computes `now - m.timestamp < win` on signed numbers.) -/
def inWindow (now win : Nat) (m : MessageRecord) : Bool :=
  (now : Int) - (m.timestamp : Int) < (win : Int)

namespace RateLimiter

/-- `RateLimiter.cleanup`: drop records older than 24h; if the record set
became empty, clear the identical-message counters. -/
def cleanup (rl : RateLimiter) (now : Nat) : RateLimiter :=
  let msgs := rl.messages.filter (inWindow now 86400000)
  { rl with messages := msgs,
            identicalCount := if msgs.isEmpty then [] else rl.identicalCount }

/-- `RateLimiter.getDelay`. Returns the delay (`-1` = BLOCK) and the updated
limiter (the source mutates `messages`/`identicalCount` via `cleanup` and
increments `burstCount` in the burst branch). The three jitter draws are
`u1` (base), `u2` (new chat), `u3` (typing). The final `Math.round` is the
identity because every summand is already an integer. -/
def getDelay (rl : RateLimiter) (now : Nat) (recipient content : String)
    (u1 u2 u3 : ℚ) : Int × RateLimiter :=
  let rl1 := rl.cleanup now
  let contentHash := hashContent content
  let dayMessages := rl1.messages.filter (inWindow now 86400000)
  if rl1.config.maxPerDay ≤ dayMessages.length then (-1, rl1)
  else
    let hourMessages := rl1.messages.filter (inWindow now 3600000)
    if rl1.config.maxPerHour ≤ hourMessages.length then
      ((match hourMessages.head? with
        | some m => (m.timestamp : Int) + 3600000 - now
        | none => 60000), rl1)
    else
      let minuteMessages := rl1.messages.filter (inWindow now 60000)
      if rl1.config.maxPerMinute ≤ minuteMessages.length then
        ((match minuteMessages.head? with
          | some m => (m.timestamp : Int) + 60000 - now
          | none => 10000), rl1)
      else
        if rl1.config.maxIdenticalMessages ≤ mapGet rl1.identicalCount contentHash then
          (-1, rl1)
        else
          let burstFast := rl1.burstCount < rl1.config.burstAllowance
          let baseDelay : Int :=
            if burstFast then
              jitter ((rl1.config.minDelayMs : ℚ) / 2) (rl1.config.minDelayMs : ℚ) u1
            else
              jitter (rl1.config.minDelayMs : ℚ) (rl1.config.maxDelayMs : ℚ) u1
          let withNewChat : Int :=
            baseDelay +
              (if recipient ∈ rl1.knownChats then 0
               else jitter ((rl1.config.newChatDelayMs : ℚ) / 2) (rl1.config.newChatDelayMs : ℚ) u2)
          let timeSinceLast : Int := (now : Int) - (rl1.lastMessageTime : Int)
          let floored : Int :=
            if timeSinceLast < (rl1.config.minDelayMs : Int) then
              max withNewChat ((rl1.config.minDelayMs : Int) - timeSinceLast)
            else withNewChat
          let typingDelay : Nat := min (content.length * 30) 3000
          (floored + jitter ((typingDelay : ℚ) / 2) (typingDelay : ℚ) u3,
           { rl1 with burstCount := if burstFast then rl1.burstCount + 1 else rl1.burstCount })

/-- `RateLimiter.record`. The source updates `lastMessageTime := now`
*before* testing `now - this.lastMessageTime > 30000`, so the burst-reset
test compares `now` against itself; the model transcribes that order. -/
def record (rl : RateLimiter) (now : Nat) (recipient content : String) : RateLimiter :=
  let contentHash := hashContent content
  let rl1 :=
    { rl with
      messages := rl.messages ++ [⟨now, recipient, contentHash⟩],
      knownChats := if recipient ∈ rl.knownChats then rl.knownChats
                    else rl.knownChats ++ [recipient],
      lastMessageTime := now,
      identicalCount := mapSet rl.identicalCount contentHash
        (mapGet rl.identicalCount contentHash + 1) }
  if (30000 : Int) < (now : Int) - (rl1.lastMessageTime : Int) then
    { rl1 with burstCount := 0 }
  else rl1

/-- The result record of `RateLimiter.getStats` (limits flattened). -/
structure Stats where
  lastMinute : Nat
  lastHour : Nat
  lastDay : Nat
  perMinute : Nat
  perHour : Nat
  perDay : Nat
  knownChats : Nat
deriving DecidableEq

/-- `RateLimiter.getStats` (runs `cleanup` like the source). -/
def getStats (rl : RateLimiter) (now : Nat) : Stats × RateLimiter :=
  let rl1 := rl.cleanup now
  (⟨(rl1.messages.filter (inWindow now 60000)).length,
    (rl1.messages.filter (inWindow now 3600000)).length,
    (rl1.messages.filter (inWindow now 86400000)).length,
    rl1.config.maxPerMinute, rl1.config.maxPerHour, rl1.config.maxPerDay,
    rl1.knownChats.length⟩, rl1)

end RateLimiter

/-- Trailing-24h send count as `getDelay` sees it (after cleanup). -/
def dayCount (rl : RateLimiter) (now : Nat) : Nat :=
  ((rl.cleanup now).messages.filter (inWindow now 86400000)).length

/-- Trailing-1h send count as `getDelay` sees it. -/
def hourCount (rl : RateLimiter) (now : Nat) : Nat :=
  ((rl.cleanup now).messages.filter (inWindow now 3600000)).length

/-- Trailing-60s send count as `getDelay` sees it. -/
def minuteCount (rl : RateLimiter) (now : Nat) : Nat :=
  ((rl.cleanup now).messages.filter (inWindow now 60000)).length

/-- Recorded count of this content fingerprint as `getDelay` sees it. -/
def identSent (rl : RateLimiter) (now : Nat) (content : String) : Nat :=
  mapGet (rl.cleanup now).identicalCount (hashContent content)

/-- The BLOCK condition of the §4.1 policy: the daily cap fired, or no
earlier check fired and the identical-message cap fired. -/
def blocks (rl : RateLimiter) (now : Nat) (content : String) : Prop :=
  rl.config.maxPerDay ≤ dayCount rl now ∨
  (dayCount rl now < rl.config.maxPerDay ∧
   hourCount rl now < rl.config.maxPerHour ∧
   minuteCount rl now < rl.config.maxPerMinute ∧
   rl.config.maxIdenticalMessages ≤ identSent rl now content)

instance (rl : RateLimiter) (now : Nat) (content : String) :
    Decidable (blocks rl now content) := by
  unfold blocks; infer_instance

/-! Basic lemmas about `jitter` and list heads used by the policy proof. -/

theorem clamp01_nonneg (u : ℚ) : 0 ≤ clamp01 u := le_max_left _ _

theorem clamp01_le_one (u : ℚ) : clamp01 u ≤ 1 := by
  unfold clamp01
  rcases le_total (1 : ℚ) u with h | h
  · simp [min_eq_left h]
  · simp only [min_eq_right h]
    exact max_le (by norm_num) h

theorem jsRound_nonneg {x : ℚ} (hx : 0 ≤ x) : 0 ≤ jsRound x := by
  unfold jsRound
  rw [Int.le_floor]
  push_cast
  linarith

theorem jitter_nonneg {a b : ℚ} (ha : 0 ≤ a) (hb : 0 ≤ b) (u : ℚ) :
    0 ≤ jitter a b u := by
  apply jsRound_nonneg
  have h0 := clamp01_nonneg u
  have h1 := clamp01_le_one u
  rcases le_total a b with hab | hab
  · nlinarith
  · nlinarith

theorem head?_filter_sat {α : Type} (p : α → Bool) (l : List α) {m : α}
    (h : (l.filter p).head? = some m) : p m = true := by
  have hm : m ∈ l.filter p := by
    cases hl : l.filter p with
    | nil => rw [hl] at h; exact absurd h (by simp)
    | cons a t =>
      rw [hl] at h
      simp only [List.head?] at h
      injection h with h
      subst h
      exact hl ▸ List.mem_cons_self a t
  exact (List.mem_filter.mp hm).2

@[simp] theorem cleanup_config (rl : RateLimiter) (now : Nat) :
    (rl.cleanup now).config = rl.config := rfl

theorem head_window_pos {now win : Nat} {l : List MessageRecord} {m : MessageRecord}
    (h : (l.filter (inWindow now win)).head? = some m) :
    0 < (m.timestamp : Int) + win - now := by
  have hw := head?_filter_sat _ _ h
  unfold inWindow at hw
  simp only [decide_eq_true_eq] at hw
  linarith

theorem getDelay_eq_day (rl : RateLimiter) (now : Nat) (recipient content : String)
    (u1 u2 u3 : ℚ) (h : rl.config.maxPerDay ≤ dayCount rl now) :
    rl.getDelay now recipient content u1 u2 u3 = (-1, rl.cleanup now) := by
  unfold dayCount at h
  simp only [RateLimiter.getDelay, cleanup_config]
  rw [if_pos h]

theorem getDelay_eq_hour (rl : RateLimiter) (now : Nat) (recipient content : String)
    (u1 u2 u3 : ℚ) (h1 : dayCount rl now < rl.config.maxPerDay)
    (h2 : rl.config.maxPerHour ≤ hourCount rl now) :
    rl.getDelay now recipient content u1 u2 u3 =
      ((match ((rl.cleanup now).messages.filter (inWindow now 3600000)).head? with
        | some m => (m.timestamp : Int) + 3600000 - now
        | none => 60000), rl.cleanup now) := by
  unfold dayCount at h1
  unfold hourCount at h2
  simp only [RateLimiter.getDelay, cleanup_config]
  rw [if_neg (not_le.mpr h1), if_pos h2]

theorem getDelay_eq_minute (rl : RateLimiter) (now : Nat) (recipient content : String)
    (u1 u2 u3 : ℚ) (h1 : dayCount rl now < rl.config.maxPerDay)
    (h2 : hourCount rl now < rl.config.maxPerHour)
    (h3 : rl.config.maxPerMinute ≤ minuteCount rl now) :
    rl.getDelay now recipient content u1 u2 u3 =
      ((match ((rl.cleanup now).messages.filter (inWindow now 60000)).head? with
        | some m => (m.timestamp : Int) + 60000 - now
        | none => 10000), rl.cleanup now) := by
  unfold dayCount at h1
  unfold hourCount at h2
  unfold minuteCount at h3
  simp only [RateLimiter.getDelay, cleanup_config]
  rw [if_neg (not_le.mpr h1), if_neg (not_le.mpr h2), if_pos h3]

theorem getDelay_eq_ident (rl : RateLimiter) (now : Nat) (recipient content : String)
    (u1 u2 u3 : ℚ) (h1 : dayCount rl now < rl.config.maxPerDay)
    (h2 : hourCount rl now < rl.config.maxPerHour)
    (h3 : minuteCount rl now < rl.config.maxPerMinute)
    (h4 : rl.config.maxIdenticalMessages ≤ identSent rl now content) :
    rl.getDelay now recipient content u1 u2 u3 = (-1, rl.cleanup now) := by
  unfold dayCount at h1
  unfold hourCount at h2
  unfold minuteCount at h3
  unfold identSent at h4
  simp only [RateLimiter.getDelay, cleanup_config]
  rw [if_neg (not_le.mpr h1), if_neg (not_le.mpr h2), if_neg (not_le.mpr h3), if_pos h4]

theorem getDelay_compute_nonneg (rl : RateLimiter) (now : Nat) (recipient content : String)
    (u1 u2 u3 : ℚ) (h1 : dayCount rl now < rl.config.maxPerDay)
    (h2 : hourCount rl now < rl.config.maxPerHour)
    (h3 : minuteCount rl now < rl.config.maxPerMinute)
    (h4 : identSent rl now content < rl.config.maxIdenticalMessages) :
    0 ≤ (rl.getDelay now recipient content u1 u2 u3).1 := by
  unfold dayCount at h1
  unfold hourCount at h2
  unfold minuteCount at h3
  unfold identSent at h4
  simp only [RateLimiter.getDelay, cleanup_config]
  rw [if_neg (not_le.mpr h1), if_neg (not_le.mpr h2), if_neg (not_le.mpr h3),
    if_neg (not_le.mpr h4)]
  have jb1 : 0 ≤ jitter ((rl.config.minDelayMs : ℚ) / 2) (rl.config.minDelayMs : ℚ) u1 :=
    jitter_nonneg (by positivity) (by positivity) u1
  have jb2 : 0 ≤ jitter (rl.config.minDelayMs : ℚ) (rl.config.maxDelayMs : ℚ) u1 :=
    jitter_nonneg (by positivity) (by positivity) u1
  have jn : 0 ≤ jitter ((rl.config.newChatDelayMs : ℚ) / 2) (rl.config.newChatDelayMs : ℚ) u2 :=
    jitter_nonneg (by positivity) (by positivity) u2
  have jt2 : 0 ≤ jitter (((min (content.length * 30) 3000 : Nat) : ℚ) / 2)
      (((min (content.length * 30) 3000 : Nat) : ℚ)) u3 :=
    jitter_nonneg (by positivity) (by positivity) u3
  split_ifs
  all_goals refine add_nonneg ?_ jt2
  all_goals try simp only [add_zero]
  all_goals
    first
      | exact jb1
      | exact jb2
      | exact add_nonneg jb1 jn
      | exact add_nonneg jb2 jn
      | exact le_max_iff.mpr (Or.inl jb1)
      | exact le_max_iff.mpr (Or.inl jb2)
      | exact le_max_iff.mpr (Or.inl (add_nonneg jb1 jn))
      | exact le_max_iff.mpr (Or.inl (add_nonneg jb2 jn))

/-- C1: `getDelay` evaluates daily-cap, hourly-cap, minute-cap,
identical-message, compute-delay in this fixed order, first match winning.
It returns `-1` (BLOCK) iff the trailing-24h count reaches `maxPerDay`, or
no earlier check fired and the fingerprint's recorded count reaches
`maxIdenticalMessages`; in every other case the result is `≥ 0`, and when
the hourly (resp. minute) check fires the result is the time until the
oldest in-window record exits the window, with fallback 60000 (resp.
10000) ms. -/
theorem getDelay_policy (rl : RateLimiter) (now : Nat) (recipient content : String)
    (u1 u2 u3 : ℚ) :
    ((rl.getDelay now recipient content u1 u2 u3).1 = -1 ↔ blocks rl now content) ∧
    (¬ blocks rl now content → 0 ≤ (rl.getDelay now recipient content u1 u2 u3).1) ∧
    (dayCount rl now < rl.config.maxPerDay → rl.config.maxPerHour ≤ hourCount rl now →
      (rl.getDelay now recipient content u1 u2 u3).1 =
        (match ((rl.cleanup now).messages.filter (inWindow now 3600000)).head? with
         | some m => (m.timestamp : Int) + 3600000 - now
         | none => 60000)) ∧
    (dayCount rl now < rl.config.maxPerDay → hourCount rl now < rl.config.maxPerHour →
      rl.config.maxPerMinute ≤ minuteCount rl now →
      (rl.getDelay now recipient content u1 u2 u3).1 =
        (match ((rl.cleanup now).messages.filter (inWindow now 60000)).head? with
         | some m => (m.timestamp : Int) + 60000 - now
         | none => 10000)) := by
  by_cases hd : rl.config.maxPerDay ≤ dayCount rl now
  · have he := getDelay_eq_day rl now recipient content u1 u2 u3 hd
    refine ⟨?_, ?_, ?_, ?_⟩
    · simp only [he]
      exact ⟨fun _ => Or.inl hd, fun _ => trivial⟩
    · intro hnb; exact absurd (Or.inl hd) hnb
    · intro h1 _; exact absurd hd (not_le.mpr h1)
    · intro h1 _ _; exact absurd hd (not_le.mpr h1)
  · have hd' := not_le.mp hd
    by_cases hh : rl.config.maxPerHour ≤ hourCount rl now
    · have he := getDelay_eq_hour rl now recipient content u1 u2 u3 hd' hh
      have hpos :
          0 < (match ((rl.cleanup now).messages.filter (inWindow now 3600000)).head? with
               | some m => (m.timestamp : Int) + 3600000 - now
               | none => (60000 : Int)) := by
        cases hE : ((rl.cleanup now).messages.filter (inWindow now 3600000)).head? with
        | some m =>
          have hw := head_window_pos hE
          simp only [hE]
          show (0 : ℤ) < (m.timestamp : Int) + 3600000 - now
          omega
        | none => simp only [hE]; norm_num
      have hnb : ¬ blocks rl now content := by
        rintro (hb | ⟨_, hb2, _, _⟩)
        · exact hd hb
        · exact absurd hh (not_le.mpr hb2)
      refine ⟨?_, ?_, ?_, ?_⟩
      · simp only [he]
        constructor
        · intro hE; rw [hE] at hpos; exact absurd hpos (by norm_num)
        · intro hb; exact absurd hb hnb
      · intro _; simp only [he]; exact le_of_lt hpos
      · intro _ _; simp only [he]
      · intro _ hh2 _; exact absurd hh (not_le.mpr hh2)
    · have hh' := not_le.mp hh
      by_cases hm : rl.config.maxPerMinute ≤ minuteCount rl now
      · have he := getDelay_eq_minute rl now recipient content u1 u2 u3 hd' hh' hm
        have hpos :
            0 < (match ((rl.cleanup now).messages.filter (inWindow now 60000)).head? with
                 | some m => (m.timestamp : Int) + 60000 - now
                 | none => (10000 : Int)) := by
          cases hE : ((rl.cleanup now).messages.filter (inWindow now 60000)).head? with
          | some m =>
            have hw := head_window_pos hE
            simp only [hE]
            show (0 : ℤ) < (m.timestamp : Int) + 60000 - now
            omega
          | none => simp only [hE]; norm_num
        have hnb : ¬ blocks rl now content := by
          rintro (hb | ⟨_, _, hb3, _⟩)
          · exact hd hb
          · exact absurd hm (not_le.mpr hb3)
        refine ⟨?_, ?_, ?_, ?_⟩
        · simp only [he]
          constructor
          · intro hE; rw [hE] at hpos; exact absurd hpos (by norm_num)
          · intro hb; exact absurd hb hnb
        · intro _; simp only [he]; exact le_of_lt hpos
        · intro _ hcontra; exact absurd hcontra hh
        · intro _ _ _; simp only [he]
      · have hm' := not_le.mp hm
        by_cases hi : rl.config.maxIdenticalMessages ≤ identSent rl now content
        · have he := getDelay_eq_ident rl now recipient content u1 u2 u3 hd' hh' hm' hi
          refine ⟨?_, ?_, ?_, ?_⟩
          · simp only [he]
            exact ⟨fun _ => Or.inr ⟨hd', hh', hm', hi⟩, fun _ => trivial⟩
          · intro hnb; exact absurd (Or.inr ⟨hd', hh', hm', hi⟩) hnb
          · intro _ hcontra; exact absurd hcontra hh
          · intro _ _ hcontra; exact absurd hcontra hm
        · have hi' := not_le.mp hi
          have hnn := getDelay_compute_nonneg rl now recipient content u1 u2 u3 hd' hh' hm' hi'
          refine ⟨?_, ?_, ?_, ?_⟩
          · constructor
            · intro hE; rw [hE] at hnn; exact absurd hnn (by norm_num)
            · rintro (hb | ⟨_, _, _, hb4⟩)
              · exact absurd hb hd
              · exact absurd hb4 hi
          · intro _; exact hnn
          · intro _ hcontra; exact absurd hcontra hh
          · intro _ _ hcontra; exact absurd hcontra hm

/-- Concrete instantiation of `getDelay_policy`: a fresh default-config
limiter blocks nothing and yields a nonnegative delay. -/
theorem getDelay_policy_witness :
    ¬ blocks (RateLimiter.mk0 defaultRateLimiterConfig) 0 "hi" ∧
    0 ≤ ((RateLimiter.mk0 defaultRateLimiterConfig).getDelay 0 "a" "hi"
        (1/2) (1/2) (1/2)).1 :=
  ⟨by decide,
   (getDelay_policy (RateLimiter.mk0 defaultRateLimiterConfig) 0 "a" "hi"
      (1/2) (1/2) (1/2)).2.1 (by decide)⟩

/-- Configuration of `WarmUp` (`warmup.ts`); `statePath` only matters to the
excluded persistence helper and is omitted. `growthFactor` and the
inactivity threshold are rationals (JS floats such as the default 1.8). -/
structure WarmUpConfig where
  warmUpDays : Nat
  day1Limit : Nat
  growthFactor : ℚ
  inactivityThresholdHours : ℚ
deriving DecidableEq

/-- The `DEFAULT_CONFIG` of `warmup.ts` (growth factor 1.8 = 9/5). -/
def defaultWarmUpConfig : WarmUpConfig :=
  { warmUpDays := 7, day1Limit := 20, growthFactor := 9/5,
    inactivityThresholdHours := 72 }

/-- The exportable `WarmUpState` of `warmup.ts`. -/
structure WarmUpState where
  startedAt : Nat
  lastActiveAt : Nat
  dailyCounts : List Nat
  graduated : Bool
deriving DecidableEq

/-- A `WarmUp` instance: configuration plus its (possibly restored) state. -/
structure WarmUp where
  config : WarmUpConfig
  state : WarmUpState
deriving DecidableEq

/-- The result record of `WarmUp.getStatus` (`Infinity` limit rendered as
`-1`, as the source does). -/
structure WarmUpStatus where
  phase : String
  day : Int
  totalDays : Nat
  todayLimit : Int
  todaySent : Nat
  progress : Int
deriving DecidableEq

/-- `dailyCounts[day] || 0`: a negative or out-of-range index reads as 0. -/
def dayIndexCount (l : List Nat) (day : Int) : Nat :=
  if 0 ≤ day then l.getD day.toNat 0 else 0

namespace WarmUp

/-- `freshState()`. -/
def freshState (now : Nat) : WarmUpState :=
  { startedAt := now, lastActiveAt := now, dailyCounts := [], graduated := false }

/-- `new WarmUp(config)` without a restored state. -/
def mk0 (cfg : WarmUpConfig) (now : Nat) : WarmUp :=
  { config := cfg, state := freshState now }

/-- `getCurrentDay`: `Math.floor((Date.now() - startedAt) / 86400000)`,
signed floor division. -/
def getCurrentDay (w : WarmUp) (now : Nat) : Int :=
  Int.fdiv ((now : Int) - (w.state.startedAt : Int)) 86400000

/-- `getDailyLimit`: `none` models the JS `Infinity`; reaching
`warmUpDays` flips `graduated` (a mutation) before returning unbounded. -/
def getDailyLimit (w : WarmUp) (now : Nat) : Option Int × WarmUp :=
  if w.state.graduated then (none, w)
  else
    let day := w.getCurrentDay now
    if (w.config.warmUpDays : Int) ≤ day then
      (none, { w with state := { w.state with graduated := true } })
    else
      (some (jsRound ((w.config.day1Limit : ℚ) * w.config.growthFactor ^ day)), w)

/-- `checkInactivity`: if graduated and idle beyond the threshold, silently
revert to a fresh, non-graduated state. -/
def checkInactivity (w : WarmUp) (now : Nat) : WarmUp :=
  if w.config.inactivityThresholdHours <
      ((now : ℚ) - (w.state.lastActiveAt : ℚ)) / 3600000 ∧
      w.state.graduated = true then
    { w with state := freshState now }
  else w

/-- `canSend`: inactivity check, then compare today's count to today's
limit (`Infinity` always passes). -/
def canSend (w : WarmUp) (now : Nat) : Bool × WarmUp :=
  let w1 := w.checkInactivity now
  if w1.state.graduated then (true, w1)
  else
    let todayCount := dayIndexCount w1.state.dailyCounts (w1.getCurrentDay now)
    let res := w1.getDailyLimit now
    ((match res.1 with
      | none => true
      | some l => decide ((todayCount : Int) < l)), res.2)

/-- `record`: extend `dailyCounts` up to today's index and increment it; a
negative day (clock before `startedAt`) writes a non-index property in JS,
invisible to every read modelled here, so only `lastActiveAt` changes. -/
def record (w : WarmUp) (now : Nat) : WarmUp :=
  let day := w.getCurrentDay now
  if 0 ≤ day then
    let d := day.toNat
    let counts := w.state.dailyCounts ++
      List.replicate (d + 1 - w.state.dailyCounts.length) 0
    { w with state := { w.state with
        dailyCounts := counts.set d (counts.getD d 0 + 1),
        lastActiveAt := now } }
  else
    { w with state := { w.state with lastActiveAt := now } }

/-- `getStatus` (reads `graduated` after `getDailyLimit` may have set it,
as the source does). -/
def getStatus (w : WarmUp) (now : Nat) : WarmUpStatus × WarmUp :=
  let day := w.getCurrentDay now
  let todaySent := dayIndexCount w.state.dailyCounts day
  let res := w.getDailyLimit now
  (⟨(if res.2.state.graduated then "graduated" else "warming"),
    min (day + 1) (w.config.warmUpDays : Int),
    w.config.warmUpDays,
    (match res.1 with | none => -1 | some l => l),
    todaySent,
    (if res.2.state.graduated then 100
     else jsRound ((day : ℚ) / (w.config.warmUpDays : ℚ) * 100))⟩,
   res.2)

/-- `exportState` (a shallow copy in the source). -/
def exportState (w : WarmUp) : WarmUpState := w.state

/-- `WarmUp.reset`. -/
def reset (w : WarmUp) (now : Nat) : WarmUp := { w with state := freshState now }

end WarmUp

theorem getCurrentDay_eq (w : WarmUp) (now : Nat) (h0 : w.state.startedAt ≤ now) :
    w.getCurrentDay now = (((now - w.state.startedAt) / 86400000 : Nat) : Int) := by
  unfold WarmUp.getCurrentDay
  rw [← Nat.cast_sub h0, Int.fdiv_eq_tdiv (by positivity) (by norm_num)]
  exact_mod_cast (Int.ofNat_tdiv (now - w.state.startedAt) 86400000).symm

theorem getDailyLimit_of_grad (w : WarmUp) (now : Nat)
    (hg : w.state.graduated = true) : w.getDailyLimit now = (none, w) := by
  unfold WarmUp.getDailyLimit
  rw [if_pos hg]

theorem getDailyLimit_of_lt (w : WarmUp) (now : Nat)
    (h0 : w.state.startedAt ≤ now) (hg : w.state.graduated = false)
    (hlt : (now - w.state.startedAt) / 86400000 < w.config.warmUpDays) :
    w.getDailyLimit now =
      (some (jsRound ((w.config.day1Limit : ℚ) *
        w.config.growthFactor ^ ((now - w.state.startedAt) / 86400000))), w) := by
  unfold WarmUp.getDailyLimit
  rw [if_neg (by rw [hg]; exact Bool.false_ne_true)]
  rw [getCurrentDay_eq w now h0]
  rw [if_neg (by exact_mod_cast not_le.mpr hlt)]
  rw [zpow_natCast]

theorem getDailyLimit_of_ge (w : WarmUp) (now : Nat)
    (h0 : w.state.startedAt ≤ now) (hg : w.state.graduated = false)
    (hge : w.config.warmUpDays ≤ (now - w.state.startedAt) / 86400000) :
    w.getDailyLimit now =
      (none, { w with state := { w.state with graduated := true } }) := by
  unfold WarmUp.getDailyLimit
  rw [if_neg (by rw [hg]; exact Bool.false_ne_true)]
  rw [getCurrentDay_eq w now h0]
  rw [if_pos (by exact_mod_cast hge)]

theorem checkInactivity_of_not_grad (w : WarmUp) (now : Nat)
    (hg : w.state.graduated = false) : w.checkInactivity now = w := by
  unfold WarmUp.checkInactivity
  rw [if_neg]
  rintro ⟨-, hgrad⟩
  rw [hg] at hgrad
  exact Bool.false_ne_true hgrad

/-- C6: while not graduated and `d < warmUpDays`, `getDailyLimit` returns
`round(day1Limit * growthFactor ^ d)` and leaves the state unchanged; once
`d ≥ warmUpDays` it returns unbounded (`none`) and flips `graduated`, after
which it returns unbounded at every later instant; with `warmUpDays = 0` it
is unbounded immediately; and while still ramping, `canSend` is `false`
exactly when today's recorded count has reached that day's limit. -/
theorem warmUp_limit_spec (w : WarmUp) (now now2 : Nat)
    (h0 : w.state.startedAt ≤ now) (hg : w.state.graduated = false) :
    ((now - w.state.startedAt) / 86400000 < w.config.warmUpDays →
      (w.getDailyLimit now).1 =
        some (jsRound ((w.config.day1Limit : ℚ) *
          w.config.growthFactor ^ ((now - w.state.startedAt) / 86400000))) ∧
      (w.getDailyLimit now).2 = w) ∧
    (w.config.warmUpDays ≤ (now - w.state.startedAt) / 86400000 →
      (w.getDailyLimit now).1 = none ∧
      (w.getDailyLimit now).2.state.graduated = true ∧
      ((w.getDailyLimit now).2.getDailyLimit now2).1 = none) ∧
    (w.config.warmUpDays = 0 → (w.getDailyLimit now).1 = none) ∧
    ((now - w.state.startedAt) / 86400000 < w.config.warmUpDays →
      ((w.canSend now).1 = false ↔
        jsRound ((w.config.day1Limit : ℚ) *
          w.config.growthFactor ^ ((now - w.state.startedAt) / 86400000)) ≤
        (w.state.dailyCounts.getD ((now - w.state.startedAt) / 86400000) 0 : Int))) := by
  refine ⟨?_, ?_, ?_, ?_⟩
  · intro hlt
    rw [getDailyLimit_of_lt w now h0 hg hlt]
    exact ⟨rfl, rfl⟩
  · intro hge
    rw [getDailyLimit_of_ge w now h0 hg hge]
    refine ⟨rfl, rfl, ?_⟩
    rw [getDailyLimit_of_grad _ now2 rfl]
  · intro h00
    rw [getDailyLimit_of_ge w now h0 hg (h00 ▸ Nat.zero_le _)]
  · intro hlt
    unfold WarmUp.canSend
    rw [checkInactivity_of_not_grad w now hg]
    rw [if_neg (by rw [hg]; exact Bool.false_ne_true)]
    rw [getDailyLimit_of_lt w now h0 hg hlt]
    simp only [dayIndexCount, getCurrentDay_eq w now h0, Int.toNat_natCast,
      Nat.cast_nonneg, if_true, if_pos]
    simp only [decide_eq_false_iff_not, not_lt]

/-- The spec's worked example: `day1Limit=5, growthFactor=2, warmUpDays=3`,
five messages recorded on day 0. -/
def warmUpAfter5 : WarmUp :=
  (((((WarmUp.mk0 ⟨3, 5, 2, 72⟩ 0).record 0).record 0).record 0).record 0).record 0

theorem jsRound_eq_of (q : ℚ) (z : ℤ) (h1 : (z : ℚ) ≤ q + 1/2)
    (h2 : q + 1/2 < z + 1) : jsRound q = z := by
  unfold jsRound
  exact Int.floor_eq_iff.mpr ⟨h1, h2⟩

/-- Concrete instantiation of `warmUp_limit_spec`: on day 0 the limit is 5,
and after five `record()` calls `canSend` is false. -/
theorem warmUp_limit_spec_witness :
    ((WarmUp.mk0 ⟨3, 5, 2, 72⟩ 0).getDailyLimit 0).1 = some 5 ∧
    (warmUpAfter5.canSend 0).1 = false := by
  have e1 : warmUpAfter5.config.day1Limit = 5 := by decide
  have e2 : warmUpAfter5.config.growthFactor = 2 := rfl
  have e3 : warmUpAfter5.state.startedAt = 0 := by decide
  constructor
  · have h := (warmUp_limit_spec (WarmUp.mk0 ⟨3, 5, 2, 72⟩ 0) 0 0
      (by decide) (by decide)).1 (by decide)
    rw [h.1]
    have hj : jsRound (((WarmUp.mk0 ⟨3, 5, 2, 72⟩ 0).config.day1Limit : ℚ) *
        (WarmUp.mk0 ⟨3, 5, 2, 72⟩ 0).config.growthFactor ^
          ((0 - (WarmUp.mk0 ⟨3, 5, 2, 72⟩ 0).state.startedAt) / 86400000)) = 5 := by
      apply jsRound_eq_of <;> norm_num [WarmUp.mk0]
    rw [hj]
  · have h := (warmUp_limit_spec warmUpAfter5 0 0 (by decide) (by decide)).2.2.2
      (by decide)
    refine h.mpr ?_
    have hj : jsRound ((warmUpAfter5.config.day1Limit : ℚ) *
        warmUpAfter5.config.growthFactor ^
          ((0 - warmUpAfter5.state.startedAt) / 86400000)) = 5 := by
      rw [e1, e2, e3]
      apply jsRound_eq_of <;> norm_num
    rw [hj, e3]
    decide

/-- The four risk levels of `health.ts`. -/
inductive BanRiskLevel
  | low
  | medium
  | high
  | critical
deriving DecidableEq

/-- Position in the source's `riskOrder` array (`['low','medium','high','critical']`). -/
def riskOrd : BanRiskLevel → Nat
  | .low => 0
  | .medium => 1
  | .high => 2
  | .critical => 3

/-- The five event kinds tracked by `health.ts`. -/
inductive HMEventType
  | disconnect
  | forbidden
  | loggedOut
  | messageFailed
  | reconnect
deriving DecidableEq

/-- An entry of the health monitor's append-only event log. -/
structure HMEvent where
  type : HMEventType
  timestamp : Nat
  detail : Option String
deriving DecidableEq

/-- Configuration of `HealthMonitor`; the `onRiskChange` callback is
modelled as the optional `HealthStatus` returned by the mutating calls. -/
structure HealthMonitorConfig where
  disconnectWarningThreshold : Nat
  disconnectCriticalThreshold : Nat
  failedMessageThreshold : Nat
  autoPauseAt : BanRiskLevel
deriving DecidableEq

/-- The `DEFAULT_CONFIG` of `health.ts`. -/
def defaultHealthMonitorConfig : HealthMonitorConfig :=
  { disconnectWarningThreshold := 3, disconnectCriticalThreshold := 5,
    failedMessageThreshold := 5, autoPauseAt := .high }

/-- The `stats` sub-record of `HealthStatus`. -/
structure HealthStatusStats where
  disconnectsLastHour : Nat
  failedMessagesLastHour : Nat
  forbiddenErrors : Nat
  uptimeMs : Int
  lastDisconnectReason : Option String
deriving DecidableEq

/-- The derived `HealthStatus` record. -/
structure HealthStatus where
  risk : BanRiskLevel
  score : Nat
  reasons : List String
  recommendation : String
  stats : HealthStatusStats
deriving DecidableEq

/-- The full mutable state of a `HealthMonitor` instance. -/
structure HealthMonitor where
  config : HealthMonitorConfig
  events : List HMEvent
  startTime : Nat
  paused : Bool
  lastRisk : BanRiskLevel
deriving DecidableEq

/-- Is event `e` within the trailing window of `win` ms before `now`? -/
def evInWindow (now win : Nat) (e : HMEvent) : Bool :=
  (now : Int) - (e.timestamp : Int) < (win : Int)

/-- The reason line pushed for forbidden (403) errors. -/
def forbiddenReason (n : Nat) : String :=
  toString n ++ " forbidden (403) error" ++ (if 1 < n then "s" else "") ++ " in last hour"

/-- The reason line pushed for a logged-out event. -/
def loggedOutReason : String := "Logged out by WhatsApp — possible temporary ban"

/-- The reason line pushed at the critical disconnect threshold. -/
def disconnectCriticalReason (n : Nat) : String :=
  toString n ++ " disconnects in last hour (critical threshold)"

/-- The reason line pushed at the warning disconnect threshold. -/
def disconnectWarningReason (n : Nat) : String :=
  toString n ++ " disconnects in last hour"

/-- The reason line pushed at the failed-message threshold. -/
def failedReason (n : Nat) : String :=
  toString n ++ " failed messages in last hour"

/-- The default entry when no check fired. -/
def noIssuesReason : String := "No issues detected"

/-- The fixed recommendation lookup by level. -/
def recommendationOf : BanRiskLevel → String
  | .critical =>
    "STOP ALL MESSAGING IMMEDIATELY. Disconnect and wait 24-48 hours before reconnecting."
  | .high => "Reduce messaging rate by 80%. Consider pausing for 1-2 hours."
  | .medium => "Reduce messaging rate by 50%. Increase delays between messages."
  | .low => "Operating normally. Continue monitoring."

namespace HealthMonitor

/-- `new HealthMonitor(config)` (`startTime = Date.now()`). -/
def mk0 (cfg : HealthMonitorConfig) (now : Nat) : HealthMonitor :=
  { config := cfg, events := [], startTime := now, paused := false, lastRisk := .low }

/-- `HealthMonitor.cleanup`: keep the last six hours of events. -/
def cleanup (hm : HealthMonitor) (now : Nat) : HealthMonitor :=
  { hm with events := hm.events.filter (evInWindow now 21600000) }

/-- `HealthMonitor.getStatus`: prune, count the trailing hour by kind,
score, classify, recommend. Returns the status together with the monitor
mutated by `cleanup`. -/
def getStatus (hm : HealthMonitor) (now : Nat) : HealthStatus × HealthMonitor :=
  let hm1 := hm.cleanup now
  let hourEvents := hm1.events.filter (evInWindow now 3600000)
  let disconnects := (hourEvents.filter (fun e => e.type == .disconnect)).length
  let forbidden := (hourEvents.filter (fun e => e.type == .forbidden)).length
  let loggedOut := (hourEvents.filter (fun e => e.type == .loggedOut)).length
  let failedMessages := (hourEvents.filter (fun e => e.type == .messageFailed)).length
  let score :=
    (if 0 < forbidden then 40 * forbidden else 0) +
    (if 0 < loggedOut then 60 else 0) +
    (if hm1.config.disconnectCriticalThreshold ≤ disconnects then 30
     else if hm1.config.disconnectWarningThreshold ≤ disconnects then 15 else 0) +
    (if hm1.config.failedMessageThreshold ≤ failedMessages then 20 else 0)
  let reasons :=
    (if 0 < forbidden then [forbiddenReason forbidden] else []) ++
    (if 0 < loggedOut then [loggedOutReason] else []) ++
    (if hm1.config.disconnectCriticalThreshold ≤ disconnects then
      [disconnectCriticalReason disconnects]
     else if hm1.config.disconnectWarningThreshold ≤ disconnects then
      [disconnectWarningReason disconnects]
     else []) ++
    (if hm1.config.failedMessageThreshold ≤ failedMessages then
      [failedReason failedMessages] else [])
  let clamped := min 100 score
  let risk : BanRiskLevel :=
    if 85 ≤ clamped then .critical
    else if 60 ≤ clamped then .high
    else if 30 ≤ clamped then .medium
    else .low
  let lastDisconnect := hm1.events.reverse.find? (fun e =>
    e.type == .disconnect || e.type == .forbidden || e.type == .loggedOut)
  (⟨risk, clamped,
    (if reasons.isEmpty then [noIssuesReason] else reasons),
    recommendationOf risk,
    ⟨disconnects, failedMessages, forbidden,
     (now : Int) - (hm1.startTime : Int),
     lastDisconnect.bind (fun e => e.detail)⟩⟩, hm1)

/-- `HealthMonitor.isPaused`: manual pause short-circuits; otherwise the
computed level is compared against `autoPauseAt` by ordinal. -/
def isPaused (hm : HealthMonitor) (now : Nat) : Bool × HealthMonitor :=
  if hm.paused then (true, hm)
  else
    let res := hm.getStatus now
    (decide (riskOrd hm.config.autoPauseAt ≤ riskOrd res.1.risk), res.2)

/-- `HealthMonitor.setPaused`. -/
def setPaused (hm : HealthMonitor) (b : Bool) : HealthMonitor := { hm with paused := b }

/-- `HealthMonitor.reset`. -/
def reset (hm : HealthMonitor) (now : Nat) : HealthMonitor :=
  { hm with events := [], startTime := now, paused := false, lastRisk := .low }

/-- `checkAndNotify`: recompute the status; on a level transition record
the new level and fire the callback (returned as `some status`). -/
def checkAndNotify (hm : HealthMonitor) (now : Nat) :
    HealthMonitor × Option HealthStatus :=
  let res := hm.getStatus now
  if res.1.risk ≠ hm.lastRisk then
    ({ res.2 with lastRisk := res.1.risk }, some res.1)
  else (res.2, none)

/-- `recordDisconnect`'s classification of the reason code (two sentinel
values each for forbidden and logged-out, else a generic disconnect). -/
def classifyDisconnect (reason : String) : HMEventType :=
  if reason = "403" ∨ reason = "forbidden" then .forbidden
  else if reason = "401" ∨ reason = "loggedOut" then .loggedOut
  else .disconnect

/-- `recordDisconnect`: append the classified event, then `checkAndNotify`. -/
def recordDisconnect (hm : HealthMonitor) (now : Nat) (reason : String) :
    HealthMonitor × Option HealthStatus :=
  ({ hm with events :=
      hm.events ++ [⟨classifyDisconnect reason, now, some reason⟩] } :
    HealthMonitor).checkAndNotify now

/-- `recordReconnect`: append a reconnect event; no notification check. -/
def recordReconnect (hm : HealthMonitor) (now : Nat) :
    HealthMonitor × Option HealthStatus :=
  ({ hm with events := hm.events ++ [⟨.reconnect, now, none⟩] }, none)

/-- `recordMessageFailed`: append the event, then `checkAndNotify`. -/
def recordMessageFailed (hm : HealthMonitor) (now : Nat) (error : Option String) :
    HealthMonitor × Option HealthStatus :=
  ({ hm with events := hm.events ++ [⟨.messageFailed, now, error⟩] } :
    HealthMonitor).checkAndNotify now

end HealthMonitor

@[simp] theorem cleanupHM_config (hm : HealthMonitor) (now : Nat) :
    (hm.cleanup now).config = hm.config := rfl

/-- Trailing-hour count of events of kind `t`, as `getStatus` sees it. -/
def hourTypeCount (hm : HealthMonitor) (now : Nat) (t : HMEventType) : Nat :=
  (((hm.cleanup now).events.filter (evInWindow now 3600000)).filter
    (fun e => e.type == t)).length

/-- The risk score as worded by the specification: clamp to [0,100] of
40 per forbidden event, plus 60 if any logged-out event, plus 30 at the
critical disconnect threshold else 15 at the warning threshold, plus 20 at
the failed-message threshold. -/
def specRiskScore (cfg : HealthMonitorConfig)
    (forbidden loggedOut disconnects failed : Nat) : Nat :=
  min 100 (40 * forbidden +
    (if 0 < loggedOut then 60 else 0) +
    (if cfg.disconnectCriticalThreshold ≤ disconnects then 30
     else if cfg.disconnectWarningThreshold ≤ disconnects then 15 else 0) +
    (if cfg.failedMessageThreshold ≤ failed then 20 else 0))

/-- The level thresholds as worded by the specification. -/
def specRiskLevel (score : Nat) : BanRiskLevel :=
  if 85 ≤ score then .critical
  else if 60 ≤ score then .high
  else if 30 ≤ score then .medium
  else .low

/-- The reason lines as worded by the specification: one distinct line per
fired contribution, in the fixed order. -/
def specReasons (cfg : HealthMonitorConfig)
    (forbidden loggedOut disconnects failed : Nat) : List String :=
  (if 0 < forbidden then [forbiddenReason forbidden] else []) ++
  (if 0 < loggedOut then [loggedOutReason] else []) ++
  (if cfg.disconnectCriticalThreshold ≤ disconnects then
    [disconnectCriticalReason disconnects]
   else if cfg.disconnectWarningThreshold ≤ disconnects then
    [disconnectWarningReason disconnects]
   else []) ++
  (if cfg.failedMessageThreshold ≤ failed then [failedReason failed] else [])

/-- C3: the score returned by `getStatus` is the spec's clamped sum over
the trailing-hour counts, the level follows the 85/60/30 thresholds
applied to that score, and the reasons are exactly one line per fired
contribution, defaulting to the single no-issues entry. -/
theorem getStatus_spec (hm : HealthMonitor) (now : Nat) :
    (hm.getStatus now).1.score =
      specRiskScore hm.config (hourTypeCount hm now .forbidden)
        (hourTypeCount hm now .loggedOut) (hourTypeCount hm now .disconnect)
        (hourTypeCount hm now .messageFailed) ∧
    (hm.getStatus now).1.risk = specRiskLevel ((hm.getStatus now).1.score) ∧
    (hm.getStatus now).1.reasons =
      (if specReasons hm.config (hourTypeCount hm now .forbidden)
          (hourTypeCount hm now .loggedOut) (hourTypeCount hm now .disconnect)
          (hourTypeCount hm now .messageFailed) = []
       then [noIssuesReason]
       else specReasons hm.config (hourTypeCount hm now .forbidden)
          (hourTypeCount hm now .loggedOut) (hourTypeCount hm now .disconnect)
          (hourTypeCount hm now .messageFailed)) := by
  have h40 : ∀ f : Nat, (if 0 < f then 40 * f else 0) = 40 * f := by
    intro f
    rcases Nat.eq_zero_or_pos f with h | h
    · simp [h]
    · simp [h]
  unfold HealthMonitor.getStatus hourTypeCount specRiskScore specRiskLevel specReasons
  refine ⟨?_, ?_, ?_⟩
  · simp only [h40, cleanupHM_config]
  · rfl
  · simp only [List.isEmpty_iff, cleanupHM_config]

/-- C7: the risk-change callback (modelled as the `Option HealthStatus`
returned by the mutating calls) fires iff the freshly computed level
differs from the last-reported one, the reported level is then recorded
(so an immediately repeated call with an unchanged level fires nothing),
both `recordDisconnect` and `recordMessageFailed` notify exactly through
`checkAndNotify` on the appended log, `recordReconnect` never notifies,
and read-only `getStatus` never touches the last-reported level. -/
theorem risk_notify_once (hm : HealthMonitor) (now : Nat) (reason : String)
    (err : Option String) :
    ((hm.checkAndNotify now).2 ≠ none ↔ (hm.getStatus now).1.risk ≠ hm.lastRisk) ∧
    ((hm.checkAndNotify now).1.lastRisk = (hm.getStatus now).1.risk) ∧
    (hm.recordDisconnect now reason =
      ({ hm with events := hm.events ++
          [⟨HealthMonitor.classifyDisconnect reason, now, some reason⟩] } :
        HealthMonitor).checkAndNotify now) ∧
    (hm.recordMessageFailed now err =
      ({ hm with events := hm.events ++ [⟨HMEventType.messageFailed, now, err⟩] } :
        HealthMonitor).checkAndNotify now) ∧
    ((hm.recordReconnect now).2 = none) ∧
    ((hm.getStatus now).2.lastRisk = hm.lastRisk) := by
  refine ⟨?_, ?_, rfl, rfl, rfl, rfl⟩
  · by_cases h : (hm.getStatus now).1.risk = hm.lastRisk
    · simp [HealthMonitor.checkAndNotify, h]
    · simp [HealthMonitor.checkAndNotify, h]
  · by_cases h : (hm.getStatus now).1.risk = hm.lastRisk
    · have h2 : (hm.getStatus now).2.lastRisk = hm.lastRisk := rfl
      simp [HealthMonitor.checkAndNotify, h, h2]
    · simp [HealthMonitor.checkAndNotify, h]

theorem typeFilter_append_reconnect (l : List HMEvent) (now now2 : Nat)
    (t : HMEventType) (ht : (HMEventType.reconnect == t) = false) :
    List.filter (fun e => e.type == t)
      (List.filter (evInWindow now2 3600000)
        (List.filter (evInWindow now2 21600000)
          (l ++ [⟨HMEventType.reconnect, now, none⟩]))) =
    List.filter (fun e => e.type == t)
      (List.filter (evInWindow now2 3600000)
        (List.filter (evInWindow now2 21600000) l)) := by
  simp only [List.filter_append, List.filter_singleton]
  cases hp : evInWindow now2 21600000 (⟨HMEventType.reconnect, now, none⟩ : HMEvent)
  · simp only [hp, Bool.cond_false, List.filter_nil, List.append_nil]
  · simp only [hp, Bool.cond_true, List.filter_singleton]
    cases hq : evInWindow now2 3600000 (⟨HMEventType.reconnect, now, none⟩ : HMEvent)
    · simp only [hq, Bool.cond_false, List.filter_nil, List.append_nil]
    · simp only [hq, Bool.cond_true, List.filter_singleton, ht, Bool.cond_false,
        List.append_nil]

theorem lastDisconnect_append_reconnect (l : List HMEvent) (now now2 : Nat) :
    (List.filter (evInWindow now2 21600000)
        (l ++ [⟨HMEventType.reconnect, now, none⟩])).reverse.find?
      (fun e => e.type == HMEventType.disconnect || e.type == HMEventType.forbidden
        || e.type == HMEventType.loggedOut) =
    (List.filter (evInWindow now2 21600000) l).reverse.find?
      (fun e => e.type == HMEventType.disconnect || e.type == HMEventType.forbidden
        || e.type == HMEventType.loggedOut) := by
  simp only [List.filter_append, List.filter_singleton]
  cases hp : evInWindow now2 21600000 (⟨HMEventType.reconnect, now, none⟩ : HMEvent)
  · simp only [hp, Bool.cond_false, List.append_nil]
  · simp only [hp, Bool.cond_true, List.reverse_append, List.reverse_singleton,
      List.singleton_append]
    simp [List.find?_cons]

/-- C10: `recordReconnect` appends an event the scoring ignores — the
status later returned by `getStatus` (score, level, reasons,
recommendation and windowed stats) and the result of `isPaused` are
unchanged, and no risk-change notification fires. -/
theorem recordReconnect_frame (hm : HealthMonitor) (now now2 : Nat) :
    ((hm.recordReconnect now).1.getStatus now2).1 = (hm.getStatus now2).1 ∧
    ((hm.recordReconnect now).1.isPaused now2).1 = (hm.isPaused now2).1 ∧
    (hm.recordReconnect now).2 = none := by
  have hst : ((hm.recordReconnect now).1.getStatus now2).1 = (hm.getStatus now2).1 := by
    unfold HealthMonitor.recordReconnect HealthMonitor.getStatus HealthMonitor.cleanup
    simp only
    rw [typeFilter_append_reconnect hm.events now now2 HMEventType.disconnect (by decide),
      typeFilter_append_reconnect hm.events now now2 HMEventType.forbidden (by decide),
      typeFilter_append_reconnect hm.events now now2 HMEventType.loggedOut (by decide),
      typeFilter_append_reconnect hm.events now now2 HMEventType.messageFailed (by decide),
      lastDisconnect_append_reconnect hm.events now now2]
  refine ⟨hst, ?_, rfl⟩
  have ep : (hm.recordReconnect now).1.paused = hm.paused := rfl
  have ec : (hm.recordReconnect now).1.config = hm.config := rfl
  by_cases hpse : hm.paused
  · simp [HealthMonitor.isPaused, ep, hpse]
  · simp [HealthMonitor.isPaused, ep, ec, hpse, hst]

/-- The aggregate counters owned by the orchestrator. -/
structure AntiBanStats where
  messagesAllowed : Nat
  messagesBlocked : Nat
  totalDelayMs : Int
deriving DecidableEq

/-- The `SendDecision` record of `antiban.ts`. -/
structure SendDecision where
  allowed : Bool
  delayMs : Int
  reason : Option String
  health : HealthStatus
  warmUpDay : Option Int
deriving DecidableEq

/-- The `AntiBan` orchestrator: the three sub-components plus counters.
(`logging` only prints to the console and is omitted.) -/
structure AntiBan where
  rateLimiter : RateLimiter
  warmUp : WarmUp
  health : HealthMonitor
  stats : AntiBanStats
deriving DecidableEq

/-- The lowercase level names used inside reason strings. -/
def riskName : BanRiskLevel → String
  | .low => "low"
  | .medium => "medium"
  | .high => "high"
  | .critical => "critical"

namespace AntiBan

/-- `new AntiBan(config)` at instant `now`, without a restored warm-up
state. -/
def mk0 (rc : RateLimiterConfig) (wc : WarmUpConfig) (hc : HealthMonitorConfig)
    (now : Nat) : AntiBan :=
  { rateLimiter := RateLimiter.mk0 rc, warmUp := WarmUp.mk0 wc now,
    health := HealthMonitor.mk0 hc now,
    stats := { messagesAllowed := 0, messagesBlocked := 0, totalDelayMs := 0 } }

/-- `AntiBan.beforeSend`: health pause check, then warm-up check, then the
pacing limiter; `totalDelayMs` is charged at decision time in the allowed
branch. The source's first `getStatus()` call feeds the decision's
`health` snapshot and its cleanup mutation carries into `isPaused()`. -/
def beforeSend (ab : AntiBan) (now : Nat) (recipient content : String)
    (u1 u2 u3 : ℚ) : SendDecision × AntiBan :=
  let hsRes := ab.health.getStatus now
  let ipRes := hsRes.2.isPaused now
  if ipRes.1 then
    ({ allowed := false, delayMs := 0,
       reason := some ("Health risk " ++ riskName hsRes.1.risk ++ ": " ++
         hsRes.1.recommendation),
       health := hsRes.1, warmUpDay := none },
     { ab with health := ipRes.2,
               stats := { ab.stats with
                 messagesBlocked := ab.stats.messagesBlocked + 1 } })
  else
    let csRes := ab.warmUp.canSend now
    if csRes.1 = false then
      let stRes := csRes.2.getStatus now
      ({ allowed := false, delayMs := 0,
         reason := some ("Warm-up limit: " ++ toString stRes.1.todaySent ++ "/" ++
           toString stRes.1.todayLimit ++ " messages today (day " ++
           toString stRes.1.day ++ ")"),
         health := hsRes.1, warmUpDay := some stRes.1.day },
       { ab with health := ipRes.2, warmUp := stRes.2,
                 stats := { ab.stats with
                   messagesBlocked := ab.stats.messagesBlocked + 1 } })
    else
      let gdRes := ab.rateLimiter.getDelay now recipient content u1 u2 u3
      if gdRes.1 = -1 then
        ({ allowed := false, delayMs := 0,
           reason := some "Rate limit exceeded or identical message spam detected",
           health := hsRes.1, warmUpDay := none },
         { ab with health := ipRes.2, warmUp := csRes.2, rateLimiter := gdRes.2,
                   stats := { ab.stats with
                     messagesBlocked := ab.stats.messagesBlocked + 1 } })
      else
        ({ allowed := true, delayMs := gdRes.1, reason := none,
           health := hsRes.1, warmUpDay := none },
         { ab with health := ipRes.2, warmUp := csRes.2, rateLimiter := gdRes.2,
                   stats := { ab.stats with
                     totalDelayMs := ab.stats.totalDelayMs + gdRes.1 } })

/-- `AntiBan.afterSend`: record in the limiter and the ramp, bump the
allowed counter. -/
def afterSend (ab : AntiBan) (now : Nat) (recipient content : String) : AntiBan :=
  { ab with rateLimiter := ab.rateLimiter.record now recipient content,
            warmUp := ab.warmUp.record now,
            stats := { ab.stats with
              messagesAllowed := ab.stats.messagesAllowed + 1 } }

/-- `AntiBan.afterSendFailed`: forward to the health monitor only. -/
def afterSendFailed (ab : AntiBan) (now : Nat) (error : Option String) : AntiBan :=
  { ab with health := (ab.health.recordMessageFailed now error).1 }

/-- `AntiBan.onDisconnect`. -/
def onDisconnect (ab : AntiBan) (now : Nat) (reason : String) : AntiBan :=
  { ab with health := (ab.health.recordDisconnect now reason).1 }

/-- `AntiBan.onReconnect`. -/
def onReconnect (ab : AntiBan) (now : Nat) : AntiBan :=
  { ab with health := (ab.health.recordReconnect now).1 }

/-- `AntiBan.pause`. -/
def pause (ab : AntiBan) : AntiBan :=
  { ab with health := ab.health.setPaused true }

/-- `AntiBan.resume`. -/
def resume (ab : AntiBan) : AntiBan :=
  { ab with health := ab.health.setPaused false }

/-- `AntiBan.reset`: the source resets the health monitor, the warm-up and
the aggregate counters — and nothing else. -/
def reset (ab : AntiBan) (now : Nat) : AntiBan :=
  { ab with health := ab.health.reset now,
            warmUp := ab.warmUp.reset now,
            stats := { messagesAllowed := 0, messagesBlocked := 0, totalDelayMs := 0 } }

/-- `AntiBan.exportWarmUpState`. -/
def exportWarmUpState (ab : AntiBan) : WarmUpState := ab.warmUp.exportState

end AntiBan

/-- C2: `beforeSend` evaluates paused → warm-up → pacing in this exact
precedence: a paused monitor blocks with `delayMs = 0` and a reason naming
the risk level and recommendation; else a warm-up refusal blocks with a
reason naming today's count, limit and ramp day; else a `-1` from the
pacing limiter blocks with the generic rate/duplicate reason; otherwise
the decision is allowed with `delayMs` equal to the limiter's delay, and
`totalDelayMs` grows by exactly that delay at decision time. -/
theorem beforeSend_precedence (ab : AntiBan) (now : Nat) (recipient content : String)
    (u1 u2 u3 : ℚ) :
    ((((ab.health.getStatus now).2.isPaused now).1 = true →
      (ab.beforeSend now recipient content u1 u2 u3).1.allowed = false ∧
      (ab.beforeSend now recipient content u1 u2 u3).1.delayMs = 0 ∧
      (ab.beforeSend now recipient content u1 u2 u3).1.reason =
        some ("Health risk " ++ riskName (ab.health.getStatus now).1.risk ++ ": " ++
          (ab.health.getStatus now).1.recommendation) ∧
      (ab.beforeSend now recipient content u1 u2 u3).2.stats.totalDelayMs =
        ab.stats.totalDelayMs) ∧
    (((ab.health.getStatus now).2.isPaused now).1 = false →
      (ab.warmUp.canSend now).1 = false →
      (ab.beforeSend now recipient content u1 u2 u3).1.allowed = false ∧
      (ab.beforeSend now recipient content u1 u2 u3).1.delayMs = 0 ∧
      (ab.beforeSend now recipient content u1 u2 u3).1.reason =
        some ("Warm-up limit: " ++
          toString (((ab.warmUp.canSend now).2.getStatus now).1.todaySent) ++ "/" ++
          toString (((ab.warmUp.canSend now).2.getStatus now).1.todayLimit) ++
          " messages today (day " ++
          toString (((ab.warmUp.canSend now).2.getStatus now).1.day) ++ ")") ∧
      (ab.beforeSend now recipient content u1 u2 u3).2.stats.totalDelayMs =
        ab.stats.totalDelayMs) ∧
    (((ab.health.getStatus now).2.isPaused now).1 = false →
      (ab.warmUp.canSend now).1 = true →
      (ab.rateLimiter.getDelay now recipient content u1 u2 u3).1 = -1 →
      (ab.beforeSend now recipient content u1 u2 u3).1.allowed = false ∧
      (ab.beforeSend now recipient content u1 u2 u3).1.delayMs = 0 ∧
      (ab.beforeSend now recipient content u1 u2 u3).1.reason =
        some "Rate limit exceeded or identical message spam detected" ∧
      (ab.beforeSend now recipient content u1 u2 u3).2.stats.totalDelayMs =
        ab.stats.totalDelayMs) ∧
    (((ab.health.getStatus now).2.isPaused now).1 = false →
      (ab.warmUp.canSend now).1 = true →
      (ab.rateLimiter.getDelay now recipient content u1 u2 u3).1 ≠ -1 →
      (ab.beforeSend now recipient content u1 u2 u3).1.allowed = true ∧
      (ab.beforeSend now recipient content u1 u2 u3).1.delayMs =
        (ab.rateLimiter.getDelay now recipient content u1 u2 u3).1 ∧
      (ab.beforeSend now recipient content u1 u2 u3).1.reason = none ∧
      (ab.beforeSend now recipient content u1 u2 u3).2.stats.totalDelayMs =
        ab.stats.totalDelayMs + (ab.rateLimiter.getDelay now recipient content u1 u2 u3).1)) := by
  refine ⟨?_, ?_, ?_, ?_⟩
  · intro hp
    simp only [AntiBan.beforeSend]
    rw [if_pos hp]
    exact ⟨rfl, rfl, rfl, rfl⟩
  · intro hp hc
    simp only [AntiBan.beforeSend]
    rw [if_neg (by rw [hp]; exact Bool.false_ne_true), if_pos hc]
    exact ⟨rfl, rfl, rfl, rfl⟩
  · intro hp hc hd
    simp only [AntiBan.beforeSend]
    rw [if_neg (by rw [hp]; exact Bool.false_ne_true),
      if_neg (by rw [hc]; simp)]
    rw [if_pos hd]
    exact ⟨rfl, rfl, rfl, rfl⟩
  · intro hp hc hd
    simp only [AntiBan.beforeSend]
    rw [if_neg (by rw [hp]; exact Bool.false_ne_true),
      if_neg (by rw [hc]; simp)]
    rw [if_neg hd]
    exact ⟨rfl, rfl, rfl, rfl⟩

/-- A fresh orchestrator (warm-up growth factor 2) used to instantiate the
`beforeSend` precedence theorem. -/
def abW : AntiBan :=
  AntiBan.mk0 defaultRateLimiterConfig ⟨7, 20, 2, 72⟩ defaultHealthMonitorConfig 0

/-- Concrete instantiation of `beforeSend_precedence`: on a fresh
orchestrator the first message is allowed and `totalDelayMs` is charged at
decision time. -/
theorem beforeSend_precedence_witness :
    (abW.beforeSend 0 "a" "hello" (1/2) (1/2) (1/2)).1.allowed = true ∧
    (abW.beforeSend 0 "a" "hello" (1/2) (1/2) (1/2)).2.stats.totalDelayMs =
      abW.stats.totalDelayMs +
        (abW.rateLimiter.getDelay 0 "a" "hello" (1/2) (1/2) (1/2)).1 := by
  have hp : ((abW.health.getStatus 0).2.isPaused 0).1 = false := by decide
  have hnb : ¬ blocks abW.rateLimiter 0 "hello" := by decide
  have hge := (getDelay_policy abW.rateLimiter 0 "a" "hello" (1/2) (1/2) (1/2)).2.1 hnb
  have hd : (abW.rateLimiter.getDelay 0 "a" "hello" (1/2) (1/2) (1/2)).1 ≠ -1 := by
    intro h
    rw [h] at hge
    exact absurd hge (by norm_num)
  have hj : jsRound ((abW.warmUp.config.day1Limit : ℚ) *
      abW.warmUp.config.growthFactor ^ ((0 - abW.warmUp.state.startedAt) / 86400000)) = 20 := by
    have e1 : abW.warmUp.config.day1Limit = 20 := by decide
    have e2 : abW.warmUp.config.growthFactor = 2 := rfl
    have e3 : abW.warmUp.state.startedAt = 0 := by decide
    rw [e1, e2, e3]
    apply jsRound_eq_of <;> norm_num
  have hcs := (warmUp_limit_spec abW.warmUp 0 0 (by decide) (by decide)).2.2.2 (by decide)
  have hcan : (abW.warmUp.canSend 0).1 = true := by
    cases hb : (abW.warmUp.canSend 0).1
    · have hx := hcs.mp hb
      rw [hj] at hx
      have e3 : abW.warmUp.state.startedAt = 0 := by decide
      rw [e3] at hx
      exact absurd hx (by decide)
    · rfl
  have h4 := (beforeSend_precedence abW 0 "a" "hello" (1/2) (1/2) (1/2)).2.2.2 hp hcan hd
  exact ⟨h4.1, h4.2.2.2⟩

/-- A fresh default-config orchestrator after one reported send. -/
def abBug : AntiBan :=
  (AntiBan.mk0 defaultRateLimiterConfig defaultWarmUpConfig
    defaultHealthMonitorConfig 0).afterSend 0 "user1" "hello"

/-- C5 (failing input): after one reported send, `reset()` zeroes the
aggregate counters and returns the health monitor and warm-up ramp to
their fresh states, but leaves the pacing limiter completely untouched —
its send history still holds the recorded message and the recipient is
still known. -/
theorem reset_partial :
    ((abBug.reset 0).stats.messagesAllowed = 0 ∧
     (abBug.reset 0).stats.messagesBlocked = 0 ∧
     (abBug.reset 0).stats.totalDelayMs = 0) ∧
    (abBug.reset 0).health = HealthMonitor.mk0 defaultHealthMonitorConfig 0 ∧
    (abBug.reset 0).warmUp.state = WarmUp.freshState 0 ∧
    (abBug.reset 0).rateLimiter = abBug.rateLimiter ∧
    (abBug.reset 0).rateLimiter.messages ≠ [] ∧
    (abBug.reset 0).rateLimiter.knownChats = ["user1"] := by
  refine ⟨⟨rfl, rfl, rfl⟩, by decide, by decide, rfl, by decide, by decide⟩

@[simp] theorem cleanup_burstCount (rl : RateLimiter) (now : Nat) :
    (rl.cleanup now).burstCount = rl.burstCount := rfl

theorem getDelay_eq_compute (rl : RateLimiter) (now : Nat) (recipient content : String)
    (u1 u2 u3 : ℚ) (h1 : dayCount rl now < rl.config.maxPerDay)
    (h2 : hourCount rl now < rl.config.maxPerHour)
    (h3 : minuteCount rl now < rl.config.maxPerMinute)
    (h4 : identSent rl now content < rl.config.maxIdenticalMessages) :
    rl.getDelay now recipient content u1 u2 u3 =
      ((if ((now : Int) - ((rl.cleanup now).lastMessageTime : Int)) <
            (rl.config.minDelayMs : Int) then
          max
            ((if (rl.cleanup now).burstCount < rl.config.burstAllowance then
                jitter ((rl.config.minDelayMs : ℚ) / 2) (rl.config.minDelayMs : ℚ) u1
              else jitter (rl.config.minDelayMs : ℚ) (rl.config.maxDelayMs : ℚ) u1) +
             (if recipient ∈ (rl.cleanup now).knownChats then 0
              else jitter ((rl.config.newChatDelayMs : ℚ) / 2)
                (rl.config.newChatDelayMs : ℚ) u2))
            ((rl.config.minDelayMs : Int) -
              ((now : Int) - ((rl.cleanup now).lastMessageTime : Int)))
        else
          (if (rl.cleanup now).burstCount < rl.config.burstAllowance then
             jitter ((rl.config.minDelayMs : ℚ) / 2) (rl.config.minDelayMs : ℚ) u1
           else jitter (rl.config.minDelayMs : ℚ) (rl.config.maxDelayMs : ℚ) u1) +
          (if recipient ∈ (rl.cleanup now).knownChats then 0
           else jitter ((rl.config.newChatDelayMs : ℚ) / 2)
             (rl.config.newChatDelayMs : ℚ) u2)) +
        jitter (((min (content.length * 30) 3000 : Nat) : ℚ) / 2)
          ((min (content.length * 30) 3000 : Nat) : ℚ) u3,
       { rl.cleanup now with
         burstCount :=
           if (rl.cleanup now).burstCount < rl.config.burstAllowance then
             (rl.cleanup now).burstCount + 1
           else (rl.cleanup now).burstCount }) := by
  unfold dayCount at h1
  unfold hourCount at h2
  unfold minuteCount at h3
  unfold identSent at h4
  simp only [RateLimiter.getDelay, cleanup_config]
  rw [if_neg (not_le.mpr h1), if_neg (not_le.mpr h2), if_neg (not_le.mpr h3),
    if_neg (not_le.mpr h4)]

theorem cleanup_idem (rl : RateLimiter) (now : Nat) :
    (rl.cleanup now).cleanup now = rl.cleanup now := by
  unfold RateLimiter.cleanup
  have hb : ∀ m : MessageRecord,
      (inWindow now 86400000 m && inWindow now 86400000 m) = inWindow now 86400000 m :=
    fun m => Bool.and_self _
  simp only [List.filter_filter, hb]
  split_ifs <;> rfl

/-- C4 (amended): `getDelay` never changes the known-recipient set, the
last-send time or the configuration, and once the burst allowance is used
up (`burstAllowance ≤ burstCount`) it is a pure read modulo the cleanup
purge: the state it returns is exactly `cleanup` and an immediately
repeated call returns the identical delay and state. (Below the
allowance it increments the burst counter — see the counterexample.) -/
theorem getDelay_frame_idem (rl : RateLimiter) (now : Nat) (recipient content : String)
    (u1 u2 u3 : ℚ) (h : rl.config.burstAllowance ≤ rl.burstCount) :
    (rl.getDelay now recipient content u1 u2 u3).2 = rl.cleanup now ∧
    (rl.getDelay now recipient content u1 u2 u3).2.knownChats = rl.knownChats ∧
    (rl.getDelay now recipient content u1 u2 u3).2.lastMessageTime = rl.lastMessageTime ∧
    (rl.getDelay now recipient content u1 u2 u3).2.config = rl.config ∧
    (rl.getDelay now recipient content u1 u2 u3).2.getDelay now recipient content u1 u2 u3 =
      rl.getDelay now recipient content u1 u2 u3 := by
  have hsnd : (rl.getDelay now recipient content u1 u2 u3).2 = rl.cleanup now := by
    by_cases hd : rl.config.maxPerDay ≤ dayCount rl now
    · rw [getDelay_eq_day rl now recipient content u1 u2 u3 hd]
    · have hd' := not_le.mp hd
      by_cases hh : rl.config.maxPerHour ≤ hourCount rl now
      · rw [getDelay_eq_hour rl now recipient content u1 u2 u3 hd' hh]
      · have hh' := not_le.mp hh
        by_cases hm : rl.config.maxPerMinute ≤ minuteCount rl now
        · rw [getDelay_eq_minute rl now recipient content u1 u2 u3 hd' hh' hm]
        · have hm' := not_le.mp hm
          by_cases hi : rl.config.maxIdenticalMessages ≤ identSent rl now content
          · rw [getDelay_eq_ident rl now recipient content u1 u2 u3 hd' hh' hm' hi]
          · rw [getDelay_eq_compute rl now recipient content u1 u2 u3 hd' hh' hm'
              (not_le.mp hi)]
            have hnb : ¬ (rl.burstCount < rl.config.burstAllowance) := not_lt.mpr h
            simp only [hnb, if_false, cleanup_burstCount, ite_false]
            exact rfl
  refine ⟨hsnd, by rw [hsnd]; rfl, by rw [hsnd]; rfl, by rw [hsnd]; rfl, ?_⟩
  rw [hsnd]
  simp only [RateLimiter.getDelay]
  rw [cleanup_idem]

/-- A default-config limiter whose burst allowance is exhausted. -/
def rlW : RateLimiter :=
  { RateLimiter.mk0 defaultRateLimiterConfig with burstCount := 3 }

/-- Concrete instantiation of `getDelay_frame_idem`. -/
theorem getDelay_frame_idem_witness :
    rlW.config.burstAllowance ≤ rlW.burstCount ∧
    (rlW.getDelay 0 "a" "x" (1/2) (1/2) (1/2)).2 = rlW.cleanup 0 :=
  ⟨by decide, (getDelay_frame_idem rlW 0 "a" "x" (1/2) (1/2) (1/2) (by decide)).1⟩

/-- A fresh limiter with `burstAllowance = 1`, used to exhibit the
mutation performed by `getDelay`. -/
def rlOneBurst : RateLimiter := RateLimiter.mk0 ⟨8, 200, 1500, 1500, 5000, 3000, 3, 1⟩

/-- C4 (counterexample): on a fresh limiter with `burstAllowance = 1`, one
`getDelay` call mutates the state (the burst counter rises to 1), and an
immediately repeated call with the same clock and random draws returns a
different delay (3375 vs 5500 ms), so `getDelay` is not a pure read. -/
theorem getDelay_mutates :
    (rlOneBurst.getDelay 0 "a" "" (1/2) (1/2) (1/2)).2 ≠ rlOneBurst ∧
    ((rlOneBurst.getDelay 0 "a" "" (1/2) (1/2) (1/2)).2.getDelay 0 "a" ""
        (1/2) (1/2) (1/2)).1 ≠
      (rlOneBurst.getDelay 0 "a" "" (1/2) (1/2) (1/2)).1 := by
  have hd1 : (rlOneBurst.getDelay 0 "a" "" (1/2) (1/2) (1/2)).1 = 3375 := by
    rw [getDelay_eq_compute rlOneBurst 0 "a" "" (1/2) (1/2) (1/2)
      (by decide) (by decide) (by decide) (by decide)]
    norm_num [rlOneBurst, RateLimiter.mk0, RateLimiter.cleanup, jitter, clamp01, jsRound]
  have hsnd : (rlOneBurst.getDelay 0 "a" "" (1/2) (1/2) (1/2)).2 =
      { rlOneBurst with burstCount := 1 } := by decide
  have hd2 : (({ rlOneBurst with burstCount := 1 } : RateLimiter).getDelay 0 "a" ""
      (1/2) (1/2) (1/2)).1 = 5500 := by
    rw [getDelay_eq_compute ({ rlOneBurst with burstCount := 1 } : RateLimiter) 0 "a" ""
      (1/2) (1/2) (1/2) (by decide) (by decide) (by decide) (by decide)]
    norm_num [rlOneBurst, RateLimiter.mk0, RateLimiter.cleanup, jitter, clamp01, jsRound]
  constructor
  · intro h
    have hb : (rlOneBurst.getDelay 0 "a" "" (1/2) (1/2) (1/2)).2.burstCount = 1 := by decide
    rw [h] at hb
    exact absurd hb (by decide)
  · rw [hsnd, hd1, hd2]
    decide

/-- C8 (failing input): a limiter whose burst allowance is exhausted
(`burstCount = 3 = burstAllowance`), last send at t=0, records a message
100 seconds later — more than 30 s of inactivity — yet the burst counter
is NOT reset (it stays 3, and the next `getDelay` therefore does not take
the fast-range branch): `record` updates `lastMessageTime` before the
inactivity test, so the test always compares `now` with itself. -/
theorem record_never_resets_burst :
    (30000 : Int) < (100000 : Int) - (rlW.lastMessageTime : Int) ∧
    (rlW.record 100000 "a" "hi").burstCount = 3 ∧
    ¬ ((rlW.record 100000 "a" "hi").burstCount <
        (rlW.record 100000 "a" "hi").config.burstAllowance) := by
  refine ⟨by decide, by decide, by decide⟩

/-- Four messages recorded at t=0 to one recipient, with
`maxPerMinute = 3` and otherwise default configuration. -/
def rlC9 : RateLimiter :=
  ((((RateLimiter.mk0 ⟨3, 200, 1500, 1500, 5000, 3000, 3, 3⟩).record 0 "a" "m1").record
    0 "a" "m2").record 0 "a" "m3").record 0 "a" "m4"

/-- C9 (counterexample): with `maxPerMinute = 3` and four messages
recorded at t=0, the next `getDelay` call at t=59500 fires the per-minute
check but returns only 500 ms — far below `maxDelayMs = 5000` — because
the oldest in-window record is about to leave the 60 s window. -/
theorem minute_delay_small :
    (rlC9.getDelay 59500 "a" "m5" (1/2) (1/2) (1/2)).1 = 500 ∧
    (rlC9.getDelay 59500 "a" "m5" (1/2) (1/2) (1/2)).1 <
      (rlC9.config.maxDelayMs : Int) := by
  have he := getDelay_eq_minute rlC9 59500 "a" "m5" (1/2) (1/2) (1/2)
    (by decide) (by decide) (by decide)
  constructor
  · rw [he]; decide
  · rw [he]; decide

/-- C9 (amended): when the per-minute check fires, the returned delay is
the time until the oldest in-window record exits the 60 s window; it is
`≥ maxDelayMs` whenever the call occurs within `60000 - maxDelayMs` ms of
the oldest in-window record (as it does when the sends happen in quick
succession). -/
theorem minute_delay_ge_max (rl : RateLimiter) (now : Nat) (recipient content : String)
    (u1 u2 u3 : ℚ) (h1 : dayCount rl now < rl.config.maxPerDay)
    (h2 : hourCount rl now < rl.config.maxPerHour)
    (h3 : rl.config.maxPerMinute ≤ minuteCount rl now)
    (m : MessageRecord)
    (hm : ((rl.cleanup now).messages.filter (inWindow now 60000)).head? = some m)
    (hclose : (now : Int) - (m.timestamp : Int) ≤ 60000 - (rl.config.maxDelayMs : Int)) :
    (rl.config.maxDelayMs : Int) ≤ (rl.getDelay now recipient content u1 u2 u3).1 := by
  rw [getDelay_eq_minute rl now recipient content u1 u2 u3 h1 h2 h3]
  simp only [hm]
  show (rl.config.maxDelayMs : Int) ≤ (m.timestamp : Int) + 60000 - now
  omega

/-- Concrete instantiation of `minute_delay_ge_max`: the same four-send
state queried at t=10 returns 59990 ms, which exceeds `maxDelayMs`. -/
theorem minute_delay_ge_max_witness :
    (rlC9.config.maxDelayMs : Int) ≤ (rlC9.getDelay 10 "a" "m5" (1/2) (1/2) (1/2)).1 :=
  minute_delay_ge_max rlC9 10 "a" "m5" (1/2) (1/2) (1/2) (by decide) (by decide)
    (by decide) ⟨0, "a", hashContent "m1"⟩ (by decide) (by decide)
